import Mathlib

/-!
# Verification of the "Nadi" demo app and its OCR helper

A shallow embedding, in Lean 4, of the screen-navigation / chat-state module
(`src/unnamed/part_000`) and of the document-OCR helper (`src/ocr-module.js`)
of the repository, together with proofs settling the frozen specification
claims.

Modelling conventions:
* DOM screen elements become a `List ScreenEl` (element id plus presence of
  the `active` class); `document.getElementById` is first-match lookup.
* The single mutable `appState` object becomes the structure `AppState`;
  every UI handler becomes a function `AppState → ... → AppState` (paired
  with the screen-element list when the handler touches the DOM).
* `Math.random()`-driven choices are exposed as an explicit index parameter
  `r : Nat` (the source picks `responses[Math.floor(Math.random() * 5)]`;
  the model picks `responses[r % 5]`).
* JavaScript numbers are embedded as `ℚ`.  All weights occurring in the
  relevance score (0.2, 0.25, 0.3, the 0.3 threshold and the 1.0 clamp) are
  exactly representable decimals and the only sum that can hit the 0.3
  threshold exactly is a single 0.3 increment, which IEEE doubles also
  compare as equal to the literal, so the rational embedding decides every
  comparison the float code decides, the same way.
* Strings are manipulated through their character lists; `jsTrim`,
  `jsToLower`, `includesStr` and the split functions below reproduce the
  corresponding JavaScript string methods (`jsLowerChar` covers the Latin
  and Cyrillic letters, the only scripts the app's data contains).
* `console.log`, `alert`, `localStorage` writes and purely presentational
  DOM updates (progress bar, welcome-screen text) are external I/O with no
  effect on the modelled state and are not represented.
-/

/-! ## String utilities mirroring the JavaScript string methods -/

/-- The character class of the JavaScript `\s` regex escape
(also the set trimmed by `String.prototype.trim`). -/
def isWs (c : Char) : Bool :=
  ['\t', '\n', '\x0b', '\x0c', '\r', ' ', '\u00A0', '\u1680', '\u2028',
    '\u2029', '\u202F', '\u205F', '\u3000', '\uFEFF'].contains c
  || ('\u2000' ≤ c && c ≤ '\u200A')

/-- `String.prototype.trim`. -/
def jsTrim (s : String) : String :=
  String.mk (((s.toList.dropWhile isWs).reverse.dropWhile isWs).reverse)

/-- Lower-casing of a single character as `String.prototype.toLowerCase`
performs it on the Latin and Cyrillic ranges. -/
def jsLowerChar (c : Char) : Char :=
  if 'A' ≤ c && c ≤ 'Z' then Char.ofNat (c.toNat + 32)
  else if 'А' ≤ c && c ≤ 'Я' then Char.ofNat (c.toNat + 32)
  else if c = 'Ё' then 'ё'
  else c

/-- `String.prototype.toLowerCase`. -/
def jsToLower (s : String) : String :=
  String.mk (s.toList.map jsLowerChar)

/-- `String.prototype.includes`: substring containment. -/
def includesStr (s pat : String) : Bool :=
  decide (pat.toList <:+: s.toList)

/-- `str.split(/\s+/)`: split on maximal whitespace runs.  A leading
(resp. trailing) whitespace run produces a leading (resp. trailing) empty
piece, exactly as in JavaScript. -/
def splitWsAux : List Char → List Char → List (List Char)
  | [], acc => [acc.reverse]
  | c :: cs, acc =>
      if isWs c then acc.reverse :: splitWsAux (cs.dropWhile isWs) []
      else splitWsAux cs (c :: acc)
termination_by cs _ => cs.length
decreasing_by
  · exact Nat.lt_succ_of_le (List.dropWhile_suffix _).sublist.length_le
  · simp

/-- `str.split(/\s+/)` on strings. -/
def jsSplitWs (s : String) : List String :=
  (splitWsAux s.toList []).map String.mk

/-- `str.split(' ')`: split on every single space character. -/
def splitOnSpaceAux : List Char → List Char → List (List Char)
  | [], acc => [acc.reverse]
  | c :: cs, acc =>
      if c = ' ' then acc.reverse :: splitOnSpaceAux cs []
      else splitOnSpaceAux cs (c :: acc)

/-- `str.split(' ')` on strings. -/
def splitOnSpace (s : String) : List String :=
  (splitOnSpaceAux s.toList []).map String.mk

/-- Leftmost-match regex search: try the matcher at every start position,
from the left, and return the first success (the semantics of an unanchored
`RegExp.prototype.match`/`exec` search). -/
def scanFirst (f : List Char → Option (List Char)) : List Char → Option (List Char)
  | [] => f []
  | c :: cs =>
      match f (c :: cs) with
      | some res => some res
      | none => scanFirst f cs

/-! ## Data model of the navigator and chat simulator (`src/unnamed/part_000`) -/

/-- One chat message as pushed onto `appState.chatMessages`
(`{ type, text, time }`). -/
structure ChatMsg where
  type : String
  text : String
  time : String
deriving DecidableEq, Repr

/-- The global mutable `appState` object. -/
structure AppState where
  currentScreen : String
  previousScreens : List String
  userType : Option String
  userName : String
  selectedTheme : Option String
  uploadedPhotos : List String
  chatMessages : List ChatMsg
  exchangeCount : Nat
  timeCount : Nat
  isVoiceActive : Bool
  memories : List String
  photosCount : Nat
  storiesCount : Nat
deriving DecidableEq, Repr

/-- The initial `appState` literal. -/
def initialAppState : AppState :=
  { currentScreen := "splash"
    previousScreens := []
    userType := none
    userName := "Дмитрий"
    selectedTheme := none
    uploadedPhotos := []
    chatMessages := []
    exchangeCount := 0
    timeCount := 0
    isVoiceActive := false
    memories := []
    photosCount := 0
    storiesCount := 0 }

/-- A theme catalog entry: display name and the fixed ordered question list. -/
structure Theme where
  name : String
  questions : List String
deriving DecidableEq, Repr

def homeTheme : Theme :=
  { name := "Семейный очаг"
    questions :=
      ["Расскажите о доме, где вы выросли. Какой он был?",
       "Какие запахи и звуки вы помните из детства?",
       "Было ли у вас особое место в доме, где вы любили проводить время?",
       "Расскажите о семейных традициях в вашем доме",
       "Какие истории связаны с вашим домом?"] }

def childhoodTheme : Theme :=
  { name := "Детство под солнцем"
    questions :=
      ["Расскажите, какое воспоминание из детства всплывает первым?",
       "Как часто вы занимались этим?",
       "Кто был с вами в те моменты?",
       "Какие эмоции вы испытывали?",
       "Есть ли какие-то особенные детали, которые вы помните?"] }

def familyTheme : Theme :=
  { name := "Сила рода"
    questions :=
      ["Расскажите о своих предках. Что вы о них знаете?",
       "Какие семейные истории передавались из поколения в поколение?",
       "Кто из родственников оказал на вас наибольшее влияние?",
       "Какие черты характера или таланты передаются в вашей семье?",
       "Какое наследие вы хотите оставить следующим поколениям?"] }

def happinessTheme : Theme :=
  { name := "Моменты счастья"
    questions :=
      ["Какой момент в жизни вы вспоминаете с особой теплотой?",
       "Что делало этот момент особенным?",
       "Кто был рядом с вами?",
       "Как вы себя чувствовали?",
       "Что бы вы хотели сказать себе в тот момент, зная то, что знаете сейчас?"] }

/-- The `themes` object: property lookup by key. -/
def themesLookup (id : String) : Option Theme :=
  if id = "home" then some homeTheme
  else if id = "childhood" then some childhoodTheme
  else if id = "family" then some familyTheme
  else if id = "happiness" then some happinessTheme
  else none

/-- A screen container element: its DOM id and whether it currently carries
the `active` class. -/
structure ScreenEl where
  id : String
  active : Bool
deriving DecidableEq, Repr

/-- `document.getElementById(i).classList.add('active')` on the first
element whose id matches (ids are unique in a well-formed document). -/
def activateFirst : List ScreenEl → String → List ScreenEl
  | [], _ => []
  | s :: rest, i =>
      if s.id == i then { s with active := true } :: rest
      else s :: activateFirst rest i

/-- `showScreen(screenId)`: remove `active` from every screen element;
if an element with the requested id exists, add `active` to it, push the
previous current screen onto the history stack when it differs, and update
the current-screen pointer.  A missing id leaves the app state untouched. -/
def showScreen (screenId : String) (st : AppState) (dom : List ScreenEl) :
    AppState × List ScreenEl :=
  let dom1 := dom.map fun s => { s with active := false }
  if dom1.any fun s => s.id == screenId then
    let st1 :=
      if st.currentScreen ≠ screenId then
        { st with previousScreens := st.currentScreen :: st.previousScreens }
      else st
    ({ st1 with currentScreen := screenId }, activateFirst dom1 screenId)
  else
    (st, dom1)

/-- `goBack()`: pop the history stack and show that screen, or fall back to
the `welcome` screen when the stack is empty. -/
def goBack (st : AppState) (dom : List ScreenEl) : AppState × List ScreenEl :=
  match st.previousScreens with
  | previousScreen :: rest =>
      showScreen previousScreen { st with previousScreens := rest } dom
  | [] => showScreen "welcome" st dom

/-- `goToSplash()`: clear the history stack and show the splash screen. -/
def goToSplash (st : AppState) (dom : List ScreenEl) : AppState × List ScreenEl :=
  showScreen "splash" { st with previousScreens := [] } dom

/-- `goToScenarios()`: clear the history stack and show scenario selection. -/
def goToScenarios (st : AppState) (dom : List ScreenEl) : AppState × List ScreenEl :=
  showScreen "scenarioSelect" { st with previousScreens := [] } dom

/-- `backToWelcome()`. -/
def backToWelcome (st : AppState) (dom : List ScreenEl) : AppState × List ScreenEl :=
  showScreen "welcome" { st with previousScreens := [] } dom

/-- `selectScenario(scenarioType)` (its `localStorage` writes are external
I/O and are not modelled). -/
def selectScenario (scenarioType : String) (st : AppState) (dom : List ScreenEl) :
    AppState × List ScreenEl :=
  let st := { st with userType := some scenarioType }
  if scenarioType = "new" then showScreen "registration" st dom
  else if scenarioType = "returning" then
    showScreen "welcome" { st with userName := "Дмитрий" } dom
  else if scenarioType = "advanced" then
    showScreen "welcome"
      { st with userName := "Дмитрий", storiesCount := 5, photosCount := 15 } dom
  else (st, dom)

/-- `completeRegistration()`: with a blank name the handler alerts and
returns early; otherwise it stores the name and shows the welcome screen. -/
def completeRegistration (name : String) (st : AppState) (dom : List ScreenEl) :
    AppState × List ScreenEl :=
  if jsTrim name = "" then (st, dom)
  else showScreen "welcome" { st with userName := jsTrim name } dom

/-! ## Chat simulator (`src/unnamed/part_000`, chat section) -/

/-- `addNadiMessage(text, hint)`: push a system ("nadi") message.  The hint
only affects the rendered bubble, not the stored message. -/
def addNadiMessage (time text : String) (hint : Option String) (st : AppState) :
    AppState :=
  { st with chatMessages := st.chatMessages ++ [{ type := "nadi", text := text, time := time }] }

/-- `addUserMessage(text)`: push a user message and advance the exchange
counter. -/
def addUserMessage (time text : String) (st : AppState) : AppState :=
  { st with
      chatMessages := st.chatMessages ++ [{ type := "user", text := text, time := time }]
      exchangeCount := st.exchangeCount + 1 }

/-- The fixed acknowledgement phrases of `getContextualResponse`. -/
def contextualResponses : List String :=
  ["Как интересно!",
   "Замечательно!",
   "Это очень трогательно",
   "Какое прекрасное воспоминание",
   "Я понимаю вас"]

/-- `getContextualResponse(userText)`: a randomly selected acknowledgement;
the random draw `Math.floor(Math.random() * responses.length)` is modelled
by the explicit index `r % responses.length`.  (The source ignores
`userText`.) -/
def getContextualResponse (r : Nat) (userText : String) : String :=
  contextualResponses.getD (r % contextualResponses.length) ""

/-- The text of the response `respondToUser` emits.  When a theme is active
and the exchange counter has not passed the question-list length, the next
question `theme.questions[exchangeCount]` is appended to an acknowledgement;
when that index is just past the list, the fixed closing line is emitted;
otherwise a generic "tell me more" filler is emitted. -/
def respondToUser (r : Nat) (userText : String) (st : AppState) : String :=
  match st.selectedTheme.bind themesLookup with
  | some theme =>
      if st.exchangeCount ≤ theme.questions.length then
        match theme.questions[st.exchangeCount]? with
        | some nextQuestion => getContextualResponse r userText ++ " " ++ nextQuestion
        | none => "Замечательно! Кажется, мы собрали все о этой теме. Хотите что-то добавить?"
      else getContextualResponse r userText ++ " Расскажите об этом подробнее."
  | none => getContextualResponse r userText ++ " Расскажите об этом подробнее."

/-- `respondToUser`'s value as a function of the only state fields it reads
(the selected theme id and the exchange counter). -/
def respondPure (r : Nat) (selectedTheme : Option String) (exchangeCount : Nat) :
    String :=
  match selectedTheme.bind themesLookup with
  | some theme =>
      if exchangeCount ≤ theme.questions.length then
        match theme.questions[exchangeCount]? with
        | some nextQuestion => getContextualResponse r "" ++ " " ++ nextQuestion
        | none => "Замечательно! Кажется, мы собрали все о этой теме. Хотите что-то добавить?"
      else getContextualResponse r "" ++ " Расскажите об этом подробнее."
  | none => getContextualResponse r "" ++ " Расскажите об этом подробнее."

/-- `sendMessage()`: trim the input; on non-blank input append the user
message (advancing the counter) and, after the typing-indicator delay,
append the nadi response computed by `respondToUser`.  Returns the new
state and the emitted response, if any. -/
def sendMessageStep (r : Nat) (time input : String) (st : AppState) :
    AppState × Option String :=
  let text := jsTrim input
  if text = "" then (st, none)
  else
    let st1 := addUserMessage time text st
    let response := respondToUser r text st1
    (addNadiMessage time response none st1, some response)

/-- A sequence of simulated user replies: fold `sendMessageStep` over the
reply texts, collecting the emitted responses in order. -/
def runReplies (r : Nat) (time : String) : List String → AppState → AppState × List String
  | [], st => (st, [])
  | t :: ts, st =>
      let step := sendMessageStep r time t st
      let rest := runReplies r time ts step.1
      (rest.1,
       match step.2 with
       | some response => response :: rest.2
       | none => rest.2)

/-- `selectTheme(themeId)` (synchronous part): record the selection, clear
the chat transcript and counters, and show the chat screen.  The two
messages it schedules on timers are `selectThemeDelayedMessages` below. -/
def selectTheme (themeId : String) (st : AppState) (dom : List ScreenEl) :
    AppState × List ScreenEl :=
  showScreen "chat"
    { st with
        selectedTheme := some themeId
        chatMessages := []
        exchangeCount := 0
        timeCount := 0 } dom

/-- The two system messages `selectTheme` schedules with `setTimeout`
(first question, then the photo tip); with an invalid theme id the callback
throws before mutating state. -/
def selectThemeDelayedMessages (themeId time : String) (st : AppState) : AppState :=
  match themesLookup themeId with
  | some theme =>
      addNadiMessage time
        "💡 Кстати, вы можете добавить фотографии к вашему рассказу — это сделает историю еще более живой и качественной!"
        (some "Нажмите на 📎 чтобы прикрепить фото")
        (addNadiMessage time ("Отличный выбор! " ++ theme.questions.getD 0 "")
          (some "Можете ответить голосом или текстом") st)
  | none => st

/-- `customTheme()` (synchronous part): with a non-blank prompt answer,
record the `custom` selection, clear the chat state and show the chat
screen; a cancelled or blank prompt leaves everything unchanged. -/
def customTheme (customThemeName : String) (st : AppState) (dom : List ScreenEl) :
    AppState × List ScreenEl :=
  if customThemeName = "" then (st, dom)
  else
    showScreen "chat"
      { st with
          selectedTheme := some "custom"
          chatMessages := []
          exchangeCount := 0
          timeCount := 0 } dom

/-- `handleFileUpload(event)` (synchronous part): record the uploaded file
and post the upload notice as a user message. -/
def handleFileUpload (time fileName : String) (st : AppState) : AppState :=
  addUserMessage time ("[Фото загружено: " ++ fileName ++ "]")
    { st with uploadedPhotos := st.uploadedPhotos ++ [fileName] }

/-- The chat timer installed on page load: once a minute, while the chat
screen is open and holds messages, advance the elapsed-time counter. -/
def timerTick (st : AppState) : AppState :=
  if st.currentScreen = "chat" ∧ 0 < st.chatMessages.length then
    { st with timeCount := st.timeCount + 1 }
  else st

/-- `finishChat()`: show the result screen (`generateStory` itself only
writes derived DOM content). -/
def finishChat (st : AppState) (dom : List ScreenEl) : AppState × List ScreenEl :=
  showScreen "result" st dom

/-- The derived story view `generateStory()` writes into the DOM. -/
structure StoryView where
  title : Option String
  preview : Option String
  wordsCount : Nat
  imagesCount : Nat
  durationCount : Nat
deriving DecidableEq, Repr

/-- `generateStory()`: concatenate the user-authored messages, derive a
truncated preview, and recompute the word / attachment / duration counters.
`none` for title or preview means the corresponding DOM node keeps its old
content. -/
def generateStory (st : AppState) : StoryView :=
  let userMessages :=
    String.intercalate " " ((st.chatMessages.filter fun m => m.type == "user").map fun m => m.text)
  { title := (st.selectedTheme.bind themesLookup).map fun theme => "📖 " ++ theme.name
    preview :=
      if userMessages ≠ "" then
        some ("<p>\"" ++ String.mk (userMessages.toList.take 200) ++ "...\"</p>")
      else none
    wordsCount := (splitOnSpace userMessages).length
    imagesCount := st.uploadedPhotos.length
    durationCount := if st.timeCount ≠ 0 then st.timeCount else 8 }

/-- The state-mutating operations of the app, for stating state invariants. -/
inductive Op where
  | showScreen (id : String)
  | back
  | toSplash
  | toScenarios
  | backWelcome
  | scenario (t : String)
  | registration (name : String)
  | theme (id : String)
  | custom (name : String)
  | user (time text : String)
  | nadi (time text : String)
  | send (r : Nat) (time text : String)
  | upload (time fileName : String)
  | finish
  | tick
deriving DecidableEq, Repr

/-- Dispatch an operation to the corresponding handler. -/
def applyOp : Op → AppState → List ScreenEl → AppState × List ScreenEl
  | .showScreen id, st, dom => showScreen id st dom
  | .back, st, dom => goBack st dom
  | .toSplash, st, dom => goToSplash st dom
  | .toScenarios, st, dom => goToScenarios st dom
  | .backWelcome, st, dom => backToWelcome st dom
  | .scenario t, st, dom => selectScenario t st dom
  | .registration name, st, dom => completeRegistration name st dom
  | .theme id, st, dom => selectTheme id st dom
  | .custom name, st, dom => customTheme name st dom
  | .user time text, st, dom => (addUserMessage time text st, dom)
  | .nadi time text, st, dom => (addNadiMessage time text none st, dom)
  | .send r time text, st, dom => ((sendMessageStep r time text st).1, dom)
  | .upload time fileName, st, dom => (handleFileUpload time fileName st, dom)
  | .finish, st, dom => finishChat st dom
  | .tick, st, dom => (timerTick st, dom)

/-- The operations that re-initialise the chat (theme selection), the only
ones that reset the exchange counter. -/
def isThemeReset : Op → Bool
  | .theme _ => true
  | .custom _ => true
  | _ => false

/-! ## Document OCR helper (`src/ocr-module.js`) -/

/-- The metadata record produced by `extractMetadata`.  A JavaScript `null`
field is `none`; note that an empty string is distinct from `null` but both
are falsy, see `optTruthy`. -/
structure DocMetadata where
  organization : Option String
  docType : Option String
  docNumber : Option String
  docDate : Option String
  persons : List String
  keywords : List String
deriving DecidableEq, Repr

/-- JavaScript truthiness of a nullable string: `null` and `""` are falsy. -/
def optTruthy (o : Option String) : Bool :=
  o.getD "" ≠ ""

/-- A recognized document as stored by `recognizeDocument` (the raw engine
output — block geometry, confidences, timestamp — comes from the external
OCR engine and does not feed the operations verified here). -/
structure RecognizedDoc where
  id : Nat
  fileName : String
  originalText : String
  processedText : String
  confidence : ℚ
  metadata : DocMetadata
deriving DecidableEq, Repr

/-- The character class `[\d\/\-]` of the document-number regex tail. -/
def isNumTail (c : Char) : Bool :=
  c.isDigit || c = '/' || c = '-'

/-- One anchored attempt of `/№\s*(\d+[\d\/\-]*)/`: at a position starting
with `№`, skip whitespace greedily and capture the maximal digit-slash-dash
run beginning with a digit. -/
def matchDocNumberAt : List Char → Option (List Char)
  | c :: rest =>
      if c = '№' then
        match rest.dropWhile isWs with
        | d :: ds =>
            if d.isDigit then some ((d :: ds).takeWhile isNumTail) else none
        | [] => none
      else none
  | [] => none

/-- One anchored attempt of `/(\d{2}\.\d{2}\.\d{4})/`. -/
def matchDateAt : List Char → Option (List Char)
  | d1 :: d2 :: p1 :: m1 :: m2 :: p2 :: y1 :: y2 :: y3 :: y4 :: _ =>
      if d1.isDigit && d2.isDigit && p1 = '.' && m1.isDigit && m2.isDigit &&
          p2 = '.' && y1.isDigit && y2.isDigit && y3.isDigit && y4.isDigit then
        some [d1, d2, p1, m1, m2, p2, y1, y2, y3, y4]
      else none
  | _ => none

/-- Case-insensitive literal prefix match (the `i` flag of the organization
regex); returns the remainder after the prefix. -/
def stripPrefixCI : List Char → List Char → Option (List Char)
  | [], rest => some rest
  | _ :: _, [] => none
  | p :: ps, c :: cs => if jsLowerChar c = p then stripPrefixCI ps cs else none

/-- The capture `([^»"]+)` of the organization regex: the maximal non-empty
run of characters other than `»` and `"` (the optional closing `[»"]?` never
forces backtracking). -/
def orgCapAt (s : List Char) : Option (List Char) :=
  let cap := s.takeWhile fun c => c ≠ '»' && c ≠ '"'
  if cap.isEmpty then none else some cap

/-- The `[«"]?([^»"]+)` part: prefer consuming an opening quote, falling
back (regex backtracking) to matching it as part of the capture. -/
def orgAfterQuote : List Char → Option (List Char)
  | [] => none
  | c :: rest =>
      if c = '«' ∨ c = '"' then
        match orgCapAt rest with
        | some cap => some cap
        | none => orgCapAt (c :: rest)
      else orgCapAt (c :: rest)

/-- The `\s*[«"]?([^»"]+)` part: try the greedy whitespace prefix of length
`i`, backtracking one character at a time (a shorter whitespace prefix lets
`[^»"]+` absorb the remaining whitespace). -/
def orgSpaces : Nat → List Char → Option (List Char)
  | 0, s => orgAfterQuote s
  | i + 1, s =>
      match orgAfterQuote (s.drop (i + 1)) with
      | some cap => some cap
      | none => orgSpaces i s

/-- One anchored attempt of
`/(?:Общество с ограниченной ответственностью|ООО)\s*[«"]?([^»"]+)[»"]?/i`,
returning the capture group. -/
def matchOrgAt (cs : List Char) : Option (List Char) :=
  let afterKeyword :=
    match stripPrefixCI "общество с ограниченной ответственностью".toList cs with
    | some rest => some rest
    | none => stripPrefixCI "ооо".toList cs
  match afterKeyword with
  | none => none
  | some rest => orgSpaces (rest.takeWhile isWs).length rest

/-- `[А-ЯЁ]`. -/
def isUpperCyr (c : Char) : Bool :=
  ('А' ≤ c && c ≤ 'Я') || c = 'Ё'

/-- `[а-яё]`. -/
def isLowerCyr (c : Char) : Bool :=
  ('а' ≤ c && c ≤ 'я') || c = 'ё'

/-- One capitalized word `[А-ЯЁ][а-яё]+` (matched text, remainder). -/
def parseCapWord : List Char → Option (List Char × List Char)
  | [] => none
  | c :: rest =>
      if isUpperCyr c then
        let lowers := rest.takeWhile isLowerCyr
        if lowers.isEmpty then none
        else some (c :: lowers, rest.drop lowers.length)
      else none

/-- `\s+` (matched text, remainder). -/
def parseGap (cs : List Char) : Option (List Char × List Char) :=
  let gap := cs.takeWhile isWs
  if gap.isEmpty then none else some (gap, cs.drop gap.length)

/-- One anchored attempt of the full-name pattern
`/([А-ЯЁ][а-яё]+)\s+([А-ЯЁ][а-яё]+)\s+([А-ЯЁ][а-яё]+)/`. -/
def matchPersonAt (cs : List Char) : Option (List Char × List Char) :=
  match parseCapWord cs with
  | none => none
  | some (w1, r1) =>
      match parseGap r1 with
      | none => none
      | some (g1, r2) =>
          match parseCapWord r2 with
          | none => none
          | some (w2, r3) =>
              match parseGap r3 with
              | none => none
              | some (g2, r4) =>
                  match parseCapWord r4 with
                  | none => none
                  | some (w3, r5) => some (w1 ++ g1 ++ w2 ++ g2 ++ w3, r5)

/-- The `exec` loop over the global full-name regex: successive
non-overlapping matches, scanning left to right.  The fuel equals the
character count, which each step strictly consumes, so it never runs out. -/
def extractPersonsAux : Nat → List Char → List String
  | 0, _ => []
  | _, [] => []
  | fuel + 1, c :: cs =>
      match matchPersonAt (c :: cs) with
      | some (matched, rest) => String.mk matched :: extractPersonsAux fuel rest
      | none => extractPersonsAux fuel cs

/-- All full-name matches of the document text. -/
def extractPersons (cs : List Char) : List String :=
  extractPersonsAux cs.length cs

/-- The fixed document-type catalog searched by `extractMetadata`. -/
def docTypesList : List String :=
  ["ПРИКАЗ", "УДОСТОВЕРЕНИЕ", "СПРАВКА", "АКТ", "ПРОТОКОЛ", "ДОГОВОР"]

/-- The fixed keyword catalog searched by `extractMetadata`. -/
def metadataKeywordList : List String :=
  ["обучение", "безопасность", "культура", "аудит", "ремонт", "техническое обслуживание"]

/-- `extractMetadata(text)`: independent first-match regex extractions for
organization, document type, number, date, person names and keyword hits. -/
def extractMetadata (text : String) : DocMetadata :=
  let cs := text.toList
  { organization := (scanFirst matchOrgAt cs).map fun cap => jsTrim (String.mk cap)
    docType := docTypesList.find? fun t => includesStr text t
    docNumber := (scanFirst matchDocNumberAt cs).map String.mk
    docDate := (scanFirst matchDateAt cs).map String.mk
    persons := extractPersons cs
    keywords := metadataKeywordList.filter fun keyword => includesStr (jsToLower text) keyword }

/-- The stop-word list of `extractKeywords`. -/
def stopWordsList : List String :=
  ["есть", "ли", "какие", "что", "как", "когда", "где", "кто", "почему", "зачем"]

/-- `/^[.,!?;:]$/.test(word)`. -/
def isSinglePunct (w : String) : Bool :=
  match w.toList with
  | [c] => ['.', ',', '!', '?', ';', ':'].contains c
  | _ => false

/-- `extractKeywords(question)`: whitespace-split the question and keep the
words longer than three characters that are neither stop words nor a lone
punctuation mark. -/
def extractKeywords (question : String) : List String :=
  (jsSplitWs question).filter fun word =>
    decide (3 < word.length) && !stopWordsList.contains word && !isSinglePunct word

/-- `calculateRelevanceScore(question, document)`: 0.2 per question keyword
found in the text, fixed bonuses for metadata fields echoed in the question,
0.25 per document keyword echoed in the question, clamped at 1. -/
def calculateRelevanceScore (question : String) (doc : RecognizedDoc) : ℚ :=
  let questionLower := jsToLower question
  let textLower := jsToLower doc.processedText
  let questionKeywords := extractKeywords questionLower
  let s1 : ℚ :=
    questionKeywords.foldl
      (fun score keyword => if includesStr textLower keyword then score + 0.2 else score) 0
  let s2 :=
    if includesStr questionLower "организация" && optTruthy doc.metadata.organization then
      s1 + 0.3
    else s1
  let s3 :=
    if includesStr questionLower "документ" && optTruthy doc.metadata.docType then
      s2 + 0.2
    else s2
  let s4 :=
    if includesStr questionLower "дата" && optTruthy doc.metadata.docDate then
      s3 + 0.3
    else s3
  let s5 :=
    doc.metadata.keywords.foldl
      (fun score keyword => if includesStr questionLower keyword then score + 0.25 else score) s4
  min s5 1

/-- `str.split(/[.!?]\s+/)`: sentence split; the separator is a punctuation
mark followed by at least one whitespace character, both removed. -/
def splitSentencesAux : List Char → List Char → List (List Char)
  | [], acc => [acc.reverse]
  | [c], acc => [(c :: acc).reverse]
  | c :: d :: cs, acc =>
      if (c = '.' ∨ c = '!' ∨ c = '?') ∧ isWs d then
        acc.reverse :: splitSentencesAux ((d :: cs).dropWhile isWs) []
      else splitSentencesAux (d :: cs) (c :: acc)
termination_by cs _ => cs.length
decreasing_by
  · exact Nat.lt_succ_of_le (List.dropWhile_suffix _).sublist.length_le
  · simp

/-- Sentence split on strings. -/
def splitSentences (s : String) : List String :=
  (splitSentencesAux s.toList []).map String.mk

/-- `extractAnswer(question, document)`: pick the sentence sharing the most
question keywords, return it with one sentence of context on each side;
otherwise fall back to the metadata fields the question mentions, or to the
fixed not-found line. -/
def extractAnswer (question : String) (doc : RecognizedDoc) : String :=
  let questionLower := jsToLower question
  let sentences := splitSentences doc.processedText
  let keywords := extractKeywords questionLower
  let best :=
    sentences.foldl
      (fun (acc : String × Nat) sentence =>
        let score := keywords.countP fun keyword => includesStr (jsToLower sentence) keyword
        if acc.2 < score then (sentence, score) else acc)
      ("", 0)
  if best.1 ≠ "" then
    let index := sentences.indexOf best.1
    String.intercalate ". "
      ((sentences.drop (index - 1)).take (min sentences.length (index + 2) - (index - 1)))
  else
    let metadataAnswer :=
      (if includesStr questionLower "организация" && optTruthy doc.metadata.organization then
        "Организация: " ++ doc.metadata.organization.getD "" ++ ". "
      else "") ++
      (if includesStr questionLower "тип" && optTruthy doc.metadata.docType then
        "Тип документа: " ++ doc.metadata.docType.getD "" ++ ". "
      else "") ++
      (if includesStr questionLower "номер" && optTruthy doc.metadata.docNumber then
        "Номер: " ++ doc.metadata.docNumber.getD "" ++ ". "
      else "") ++
      (if includesStr questionLower "дата" && optTruthy doc.metadata.docDate then
        "Дата: " ++ doc.metadata.docDate.getD "" ++ ". "
      else "")
    if metadataAnswer ≠ "" then metadataAnswer
    else "Информация не найдена в документе"

/-- One entry of the `matchQuestionsToDocument` result. -/
structure QAMatch where
  question : String
  answer : String
  relevanceScore : ℚ
  confidence : ℚ
  sourceFileName : String
  sourceDocId : Nat
deriving DecidableEq, Repr

/-- Descending relevance order (the `(a, b) => b.relevanceScore -
a.relevanceScore` comparator). -/
def scoreGE (a b : QAMatch) : Prop :=
  b.relevanceScore ≤ a.relevanceScore

instance : DecidableRel scoreGE :=
  fun a b => inferInstanceAs (Decidable (b.relevanceScore ≤ a.relevanceScore))

instance : IsTotal QAMatch scoreGE :=
  ⟨fun a b => le_total b.relevanceScore a.relevanceScore⟩

instance : IsTrans QAMatch scoreGE :=
  ⟨fun _ _ _ hab hbc => le_trans hbc hab⟩

/-- `matchQuestionsToDocument(document, questions)`: keep the questions
whose relevance score strictly exceeds the 0.3 threshold, pair them with
extracted answers and provenance, and sort by descending relevance (the
JavaScript sort is stable, as is the insertion sort used here). -/
def matchQuestionsToDocument (doc : RecognizedDoc) (questions : List String) :
    List QAMatch :=
  let kept :=
    questions.filterMap fun question =>
      let score := calculateRelevanceScore question doc
      if (0.3 : ℚ) < score then
        some
          { question := question
            answer := extractAnswer question doc
            relevanceScore := score
            confidence := doc.confidence
            sourceFileName := doc.fileName
            sourceDocId := doc.id }
      else none
  kept.insertionSort scoreGE

/-! ## Facts about the screen navigator -/

/-- Removing the `active` class changes no element id, so the existence
test of `showScreen` is insensitive to the initial deactivation pass. -/
theorem any_id_map_deactivate (dom : List ScreenEl) (i : String) :
    ((dom.map fun s => { s with active := false }).any fun s => s.id == i) =
      dom.any fun s => s.id == i := by
  induction dom with
  | nil => rfl
  | cons s rest ih => simp [ih]

/-- The app-state component of `showScreen`, in closed form. -/
theorem showScreen_fst (screenId : String) (st : AppState) (dom : List ScreenEl) :
    (showScreen screenId st dom).1 =
      if (dom.map fun s => { s with active := false }).any (fun s => s.id == screenId) then
        { st with
            currentScreen := screenId
            previousScreens :=
              if st.currentScreen ≠ screenId then st.currentScreen :: st.previousScreens
              else st.previousScreens }
      else st := by
  unfold showScreen
  dsimp only
  split
  · split <;> rfl
  · rfl

theorem showScreen_selectedTheme (screenId : String) (st : AppState) (dom : List ScreenEl) :
    (showScreen screenId st dom).1.selectedTheme = st.selectedTheme := by
  rw [showScreen_fst]; split <;> rfl

theorem showScreen_exchangeCount (screenId : String) (st : AppState) (dom : List ScreenEl) :
    (showScreen screenId st dom).1.exchangeCount = st.exchangeCount := by
  rw [showScreen_fst]; split <;> rfl

theorem showScreen_chatMessages (screenId : String) (st : AppState) (dom : List ScreenEl) :
    (showScreen screenId st dom).1.chatMessages = st.chatMessages := by
  rw [showScreen_fst]; split <;> rfl

theorem showScreen_uploadedPhotos (screenId : String) (st : AppState) (dom : List ScreenEl) :
    (showScreen screenId st dom).1.uploadedPhotos = st.uploadedPhotos := by
  rw [showScreen_fst]; split <;> rfl

theorem showScreen_timeCount (screenId : String) (st : AppState) (dom : List ScreenEl) :
    (showScreen screenId st dom).1.timeCount = st.timeCount := by
  rw [showScreen_fst]; split <;> rfl

/-- After the deactivation pass, activating the first element carrying the
requested id leaves exactly the elements with that id active — with unique
ids, exactly the target. -/
theorem activateFirst_active_iff (l : List ScreenEl) (i : String)
    (hall : ∀ s ∈ l, s.active = false)
    (hnd : (l.map fun s => s.id).Nodup)
    (hex : ∃ s ∈ l, s.id = i) :
    ∀ t ∈ activateFirst l i, (t.active = true ↔ t.id = i) := by
  induction l with
  | nil => simp at hex
  | cons s rest ih =>
    rw [List.map_cons, List.nodup_cons] at hnd
    by_cases hc : s.id = i
    · intro t ht
      rw [activateFirst, if_pos (beq_iff_eq.mpr hc)] at ht
      rcases List.mem_cons.mp ht with h | h
      · subst h
        exact ⟨fun _ => hc, fun _ => rfl⟩
      · have hf : t.active = false := hall t (List.mem_cons_of_mem _ h)
        have hne : t.id ≠ i := by
          intro hti
          exact hnd.1 ((hc.trans hti.symm) ▸ List.mem_map_of_mem (fun s => s.id) h)
        constructor
        · intro habs; exact absurd (hf ▸ habs) (by simp)
        · intro hti; exact absurd hti hne
    · intro t ht
      rw [activateFirst, if_neg (by simpa using hc)] at ht
      rcases List.mem_cons.mp ht with h | h
      · subst h
        have hf : t.active = false := hall t (List.mem_cons_self _ _)
        constructor
        · intro habs; exact absurd (hf ▸ habs) (by simp)
        · intro hti; exact absurd hti hc
      · refine ih (fun u hu => hall u (List.mem_cons_of_mem _ hu)) hnd.2 ?_ t h
        obtain ⟨w, hw, hwi⟩ := hex
        rcases List.mem_cons.mp hw with rfl | hw'
        · exact absurd hwi hc
        · exact ⟨w, hw', hwi⟩

/-- A fixed document of screen elements used to instantiate the navigation
theorems on concrete inputs. -/
def demoScreens : List ScreenEl :=
  [⟨"splash", true⟩, ⟨"scenarioSelect", false⟩, ⟨"themes", false⟩,
   ⟨"welcome", false⟩, ⟨"chat", false⟩, ⟨"registration", false⟩,
   ⟨"result", false⟩]

/-- C1: for every screen id matching an existing screen element,
`showScreen(id)` deactivates all other screens and activates exactly the
target: afterwards the target carries the `active` class, no other screen
does, and `appState.currentScreen` equals the id. -/
theorem showScreen_activates_target (screenId : String) (st : AppState)
    (dom : List ScreenEl) (hex : ∃ s ∈ dom, s.id = screenId)
    (hnd : (dom.map fun s => s.id).Nodup) :
    (showScreen screenId st dom).1.currentScreen = screenId ∧
    ∀ s ∈ (showScreen screenId st dom).2, (s.active = true ↔ s.id = screenId) := by
  have hany :
      ((dom.map fun s => { s with active := false }).any fun s => s.id == screenId) = true := by
    rw [any_id_map_deactivate, List.any_eq_true]
    obtain ⟨s, hs, hid⟩ := hex
    exact ⟨s, hs, beq_iff_eq.mpr hid⟩
  constructor
  · rw [showScreen_fst, if_pos hany]
  · have h2 :
        (showScreen screenId st dom).2 =
          activateFirst (dom.map fun s => { s with active := false }) screenId := by
      unfold showScreen
      dsimp only
      rw [if_pos hany]
    rw [h2]
    apply activateFirst_active_iff
    · intro s hs
      obtain ⟨t, _, rfl⟩ := List.mem_map.mp hs
      rfl
    · rw [List.map_map]
      exact hnd
    · obtain ⟨s, hs, hid⟩ := hex
      exact ⟨{ s with active := false }, List.mem_map_of_mem _ hs, hid⟩

/-- C1 witness: `showScreen "welcome"` on the demo document. -/
theorem showScreen_activates_target_witness :
    (∃ s ∈ demoScreens, s.id = "welcome") ∧
    ((demoScreens.map fun s => s.id).Nodup) ∧
    ((showScreen "welcome" initialAppState demoScreens).1.currentScreen = "welcome" ∧
     ∀ s ∈ (showScreen "welcome" initialAppState demoScreens).2,
       (s.active = true ↔ s.id = "welcome")) :=
  ⟨by decide, by decide,
    showScreen_activates_target "welcome" initialAppState demoScreens
      (by decide) (by decide)⟩

/-- C9: `showScreen` with an id matching no screen element leaves
`appState.currentScreen` and `appState.previousScreens` unchanged. -/
theorem showScreen_missing_id_noop (screenId : String) (st : AppState)
    (dom : List ScreenEl) (hmiss : ∀ s ∈ dom, s.id ≠ screenId) :
    (showScreen screenId st dom).1.currentScreen = st.currentScreen ∧
    (showScreen screenId st dom).1.previousScreens = st.previousScreens := by
  have hany :
      ((dom.map fun s => { s with active := false }).any fun s => s.id == screenId) = false := by
    rw [any_id_map_deactivate]
    simp only [List.any_eq_false]
    intro s hs
    simpa using hmiss s hs
  rw [showScreen_fst, if_neg (by simp [hany])]
  exact ⟨rfl, rfl⟩

/-- C9 witness: a missing id on the demo document. -/
theorem showScreen_missing_id_noop_witness :
    (∀ s ∈ demoScreens, s.id ≠ "nonexistentScreen") ∧
    ((showScreen "nonexistentScreen" initialAppState demoScreens).1.currentScreen =
        initialAppState.currentScreen ∧
     (showScreen "nonexistentScreen" initialAppState demoScreens).1.previousScreens =
        initialAppState.previousScreens) :=
  ⟨by decide,
    showScreen_missing_id_noop "nonexistentScreen" initialAppState demoScreens (by decide)⟩

/-- C2 (amended): a single `goBack()` shows the popped screen — the top of
the history stack — but, because `showScreen` pushes the screen being left
back onto the stack, the stack afterwards holds the abandoned screen in its
place (so iterating `goBack` alternates between the last two screens
instead of unwinding the history); with an empty stack `goBack()` lands on
the default `welcome` screen. -/
theorem goBack_pop_or_welcome (st : AppState) (dom : List ScreenEl) :
    (∀ p rest, st.previousScreens = p :: rest → (∃ s ∈ dom, s.id = p) →
        p ≠ st.currentScreen →
        (goBack st dom).1.currentScreen = p ∧
        (goBack st dom).1.previousScreens = st.currentScreen :: rest) ∧
    (st.previousScreens = [] → (∃ s ∈ dom, s.id = "welcome") →
        (goBack st dom).1.currentScreen = "welcome") := by
  constructor
  · intro p rest hprev hex hne
    have hany :
        ((dom.map fun s => { s with active := false }).any fun s => s.id == p) = true := by
      rw [any_id_map_deactivate, List.any_eq_true]
      obtain ⟨s, hs, hid⟩ := hex
      exact ⟨s, hs, beq_iff_eq.mpr hid⟩
    simp only [goBack, hprev]
    rw [showScreen_fst, if_pos hany]
    refine ⟨rfl, ?_⟩
    simp only [if_pos (show ({ st with previousScreens := rest } : AppState).currentScreen ≠ p
      from fun h => hne h.symm)]
  · intro hprev hex
    have hany :
        ((dom.map fun s => { s with active := false }).any fun s => s.id == "welcome") = true := by
      rw [any_id_map_deactivate, List.any_eq_true]
      obtain ⟨s, hs, hid⟩ := hex
      exact ⟨s, hs, beq_iff_eq.mpr hid⟩
    simp only [goBack, hprev]
    rw [showScreen_fst, if_pos hany]

/-- The state a `goBack` witness starts from: chat screen open, `welcome`
on the history stack. -/
def backDemoState : AppState :=
  { initialAppState with currentScreen := "chat", previousScreens := ["welcome"] }

/-- C2 witness: one `goBack` from the chat screen with `["welcome"]` as
history pops back to `welcome` and pushes `chat` in its place. -/
theorem goBack_pop_or_welcome_witness :
    backDemoState.previousScreens = "welcome" :: [] ∧
    (∃ s ∈ demoScreens, s.id = "welcome") ∧
    ("welcome" ≠ backDemoState.currentScreen) ∧
    ((goBack backDemoState demoScreens).1.currentScreen = "welcome" ∧
     (goBack backDemoState demoScreens).1.previousScreens =
       backDemoState.currentScreen :: []) :=
  ⟨rfl, by decide, by decide,
    (goBack_pop_or_welcome backDemoState demoScreens).1
      "welcome" [] rfl (by decide) (by decide)⟩

def cexC2Step1 : AppState × List ScreenEl :=
  showScreen "scenarioSelect" initialAppState demoScreens

def cexC2Step2 : AppState × List ScreenEl :=
  showScreen "themes" cexC2Step1.1 cexC2Step1.2

def cexC2Back1 : AppState × List ScreenEl := goBack cexC2Step2.1 cexC2Step2.2

def cexC2Back2 : AppState × List ScreenEl := goBack cexC2Back1.1 cexC2Back1.2

/-- C2 counterexample: from the initial `splash` screen, two forward
navigations to the distinct existing screens `scenarioSelect` and `themes`
followed by two `goBack()` calls end on `themes`, not on the screen current
two steps prior (`splash`): the claimed N-step unwinding fails at N = 2. -/
theorem goBack_twice_counterexample :
    initialAppState.currentScreen = "splash" ∧
    cexC2Step1.1.currentScreen = "scenarioSelect" ∧
    cexC2Step2.1.currentScreen = "themes" ∧
    cexC2Back2.1.currentScreen = "themes" ∧
    cexC2Back2.1.currentScreen ≠ "splash" := by decide

/-! ## Facts about the chat simulator -/

/-- C8: selecting a theme resets the exchange counter to 0 and clears the
chat transcript, from any prior state. -/
theorem selectTheme_resets_chat (themeId : String) (st : AppState)
    (dom : List ScreenEl) (hvalid : (themesLookup themeId).isSome = true) :
    (selectTheme themeId st dom).1.exchangeCount = 0 ∧
    (selectTheme themeId st dom).1.chatMessages = [] := by
  unfold selectTheme
  exact ⟨showScreen_exchangeCount _ _ _, showScreen_chatMessages _ _ _⟩

/-- C8 witness: selecting the `home` theme from a dirty state. -/
theorem selectTheme_resets_chat_witness :
    (themesLookup "home").isSome = true ∧
    ((selectTheme "home"
        { initialAppState with
            exchangeCount := 4
            chatMessages := [{ type := "user", text := "привет", time := "10:00" }] }
        demoScreens).1.exchangeCount = 0 ∧
     (selectTheme "home"
        { initialAppState with
            exchangeCount := 4
            chatMessages := [{ type := "user", text := "привет", time := "10:00" }] }
        demoScreens).1.chatMessages = []) :=
  ⟨by decide,
    selectTheme_resets_chat "home"
      { initialAppState with
          exchangeCount := 4
          chatMessages := [{ type := "user", text := "привет", time := "10:00" }] }
      demoScreens (by decide)⟩

/-- C10: `selectTheme` does not reset the uploaded-attachment list — the
photo list survives unchanged, and `generateStory`'s attachment counter in
the new conversation still counts the photos attached earlier. -/
theorem selectTheme_preserves_uploadedPhotos (themeId : String) (st : AppState)
    (dom : List ScreenEl) :
    (selectTheme themeId st dom).1.uploadedPhotos = st.uploadedPhotos ∧
    (generateStory (selectTheme themeId st dom).1).imagesCount =
      st.uploadedPhotos.length := by
  have h : (selectTheme themeId st dom).1.uploadedPhotos = st.uploadedPhotos := by
    unfold selectTheme
    exact showScreen_uploadedPhotos _ _ _
  refine ⟨h, ?_⟩
  show (selectTheme themeId st dom).1.uploadedPhotos.length = st.uploadedPhotos.length
  rw [h]

/-- C5 (amended): apart from the two theme-selection operations — which
re-initialise the chat and reset the counter to 0 — no operation of the app
decreases `appState.exchangeCount`. -/
theorem exchangeCount_nondecreasing (op : Op) (st : AppState) (dom : List ScreenEl)
    (h : isThemeReset op = false) :
    st.exchangeCount ≤ (applyOp op st dom).1.exchangeCount := by
  cases op with
  | showScreen id => rw [applyOp, showScreen_exchangeCount]
  | back =>
      rw [applyOp]
      unfold goBack
      cases st.previousScreens <;> rw [showScreen_exchangeCount]
  | toSplash => rw [applyOp]; unfold goToSplash; rw [showScreen_exchangeCount]
  | toScenarios => rw [applyOp]; unfold goToScenarios; rw [showScreen_exchangeCount]
  | backWelcome => rw [applyOp]; unfold backToWelcome; rw [showScreen_exchangeCount]
  | scenario t =>
      rw [applyOp]
      unfold selectScenario
      dsimp only
      split
      · rw [showScreen_exchangeCount]
      · split
        · rw [showScreen_exchangeCount]
        · split
          · rw [showScreen_exchangeCount]
          · exact le_refl _
  | registration name =>
      rw [applyOp]
      unfold completeRegistration
      split
      · exact le_refl _
      · rw [showScreen_exchangeCount]
  | theme id => exact absurd h (by simp [isThemeReset])
  | custom name => exact absurd h (by simp [isThemeReset])
  | user time text => rw [applyOp]; exact Nat.le_succ _
  | nadi time text => rw [applyOp]; exact le_refl _
  | send r time text =>
      rw [applyOp]
      unfold sendMessageStep
      dsimp only
      split
      · exact le_refl _
      · exact Nat.le_succ _
  | upload time fileName => rw [applyOp]; exact Nat.le_succ _
  | finish => rw [applyOp]; unfold finishChat; rw [showScreen_exchangeCount]
  | tick =>
      rw [applyOp]
      unfold timerTick
      split
      · exact le_refl _
      · exact le_refl _

/-- C5 witness: a `showScreen` operation does not decrease the counter. -/
theorem exchangeCount_nondecreasing_witness :
    isThemeReset (Op.showScreen "welcome") = false ∧
    ({ initialAppState with exchangeCount := 3 } : AppState).exchangeCount ≤
      (applyOp (Op.showScreen "welcome") { initialAppState with exchangeCount := 3 }
        demoScreens).1.exchangeCount :=
  ⟨by decide,
    exchangeCount_nondecreasing (Op.showScreen "welcome")
      { initialAppState with exchangeCount := 3 } demoScreens (by decide)⟩

def cexC5State : AppState :=
  (runReplies 0 "12:00" ["Помню наш старый дом с печкой."]
    (selectTheme "home" initialAppState demoScreens).1).1

/-- C5 counterexample: from a reachable state with one completed exchange,
selecting a theme again drops `exchangeCount` from 1 to 0 — the program does
contain an operation that decreases the counter. -/
theorem exchangeCount_decreases_counterexample :
    cexC5State.exchangeCount = 1 ∧
    (applyOp (Op.theme "childhood") cexC5State demoScreens).1.exchangeCount = 0 ∧
    (applyOp (Op.theme "childhood") cexC5State demoScreens).1.exchangeCount <
      cexC5State.exchangeCount := by decide

/-- `respondToUser` reads only the selected theme and the exchange counter. -/
theorem respondToUser_eq_pure (r : Nat) (userText : String) (st : AppState) :
    respondToUser r userText st = respondPure r st.selectedTheme st.exchangeCount := rfl

/-- The acknowledgement phrase is always drawn from the fixed list. -/
theorem getContextualResponse_mem (r : Nat) (userText : String) :
    getContextualResponse r userText ∈ contextualResponses := by
  unfold getContextualResponse
  have h : r % contextualResponses.length < contextualResponses.length := by
    apply Nat.mod_lt
    decide
  rw [List.getD_eq_getElem _ _ h]
  exact List.getElem_mem _

/-- `sendMessageStep` on a non-blank input, in closed form: the user message
is appended, the counter advances, and the emitted response is
`respondPure` at the advanced counter. -/
theorem sendMessageStep_eq (r : Nat) (time t : String) (st : AppState)
    (h : jsTrim t ≠ "") :
    sendMessageStep r time t st =
      (addNadiMessage time (respondPure r st.selectedTheme (st.exchangeCount + 1)) none
          (addUserMessage time (jsTrim t) st),
       some (respondPure r st.selectedTheme (st.exchangeCount + 1))) := by
  simp only [sendMessageStep]
  rw [if_neg h]
  rfl

/-- The responses emitted by a run of non-blank replies: the `j`-th reply
(0-based) is answered by `respondPure` at counter `j + 1`. -/
theorem runReplies_responses (r : Nat) (time : String) :
    ∀ (texts : List String) (st : AppState), (∀ t ∈ texts, jsTrim t ≠ "") →
      (runReplies r time texts st).2 =
        (List.range texts.length).map
          (fun j => respondPure r st.selectedTheme (st.exchangeCount + j + 1)) := by
  intro texts
  induction texts with
  | nil => intro st _; rfl
  | cons t ts ih =>
    intro st h
    have ht : jsTrim t ≠ "" := h t (List.mem_cons_self _ _)
    have hts : ∀ u ∈ ts, jsTrim u ≠ "" := fun u hu => h u (List.mem_cons_of_mem _ hu)
    have hih := ih (addNadiMessage time
        (respondPure r st.selectedTheme (st.exchangeCount + 1)) none
        (addUserMessage time (jsTrim t) st)) hts
    simp only [runReplies]
    rw [sendMessageStep_eq r time t st ht]
    dsimp only
    rw [hih]
    dsimp only [addNadiMessage, addUserMessage]
    rw [List.length_cons, List.range_succ_eq_map, List.map_cons, List.map_map]
    have h1 : ∀ j : ℕ, st.exchangeCount + 1 + j + 1 = st.exchangeCount + (j + 1) + 1 := by
      intro j
      omega
    simp only [Function.comp_def, Nat.add_zero, h1]

/-- C3 (amended): under a selected valid theme, the response to the K-th
non-blank reply (1 ≤ K) is: for K strictly below the question count, an
acknowledgement phrase followed by `theme.questions[K]`; exactly at
K = question count, the fixed closing message; strictly beyond the count,
an acknowledgement phrase followed by the generic "tell me more" filler —
not the closing message. -/
theorem respond_question_sequence (r : Nat) (time themeId : String) (theme : Theme)
    (hth : themesLookup themeId = some theme)
    (texts : List String) (hne : ∀ t ∈ texts, jsTrim t ≠ "")
    (st : AppState) (dom : List ScreenEl) (K : Nat)
    (hlen : texts.length = K) (hK : 1 ≤ K) :
    (∀ q, theme.questions[K]? = some q →
        ∃ ack ∈ contextualResponses,
          ((runReplies r time texts (selectTheme themeId st dom).1).2)[K - 1]? =
            some (ack ++ " " ++ q)) ∧
    (K = theme.questions.length →
        ((runReplies r time texts (selectTheme themeId st dom).1).2)[K - 1]? =
          some "Замечательно! Кажется, мы собрали все о этой теме. Хотите что-то добавить?") ∧
    (theme.questions.length < K →
        ∃ ack ∈ contextualResponses,
          ((runReplies r time texts (selectTheme themeId st dom).1).2)[K - 1]? =
            some (ack ++ " Расскажите об этом подробнее.")) := by
  have hsel : (selectTheme themeId st dom).1.selectedTheme = some themeId := by
    unfold selectTheme
    rw [showScreen_selectedTheme]
  have hec : (selectTheme themeId st dom).1.exchangeCount = 0 := by
    unfold selectTheme
    rw [showScreen_exchangeCount]
  have hidx :
      ((runReplies r time texts (selectTheme themeId st dom).1).2)[K - 1]? =
        some (respondPure r (some themeId) K) := by
    rw [runReplies_responses r time texts _ hne, List.getElem?_map]
    have hKlt : K - 1 < texts.length := by omega
    rw [List.getElem?_range hKlt, Option.map_some']
    rw [hsel, hec]
    have harith : 0 + (K - 1) + 1 = K := by omega
    rw [harith]
  refine ⟨?_, ?_, ?_⟩
  · intro q hq
    have hlt : K < theme.questions.length := (List.getElem?_eq_some.mp hq).1
    refine ⟨getContextualResponse r "", getContextualResponse_mem r "", ?_⟩
    rw [hidx]
    simp only [respondPure, Option.some_bind, hth]
    rw [if_pos (Nat.le_of_lt hlt), hq]
  · intro hKlen
    rw [hidx]
    simp only [respondPure, Option.some_bind, hth]
    rw [if_pos (le_of_eq hKlen), List.getElem?_eq_none (le_of_eq hKlen.symm)]
  · intro hlt
    refine ⟨getContextualResponse r "", getContextualResponse_mem r "", ?_⟩
    rw [hidx]
    simp only [respondPure, Option.some_bind, hth]
    rw [if_neg (by omega)]

/-- C3 witness: with K = 1 reply under the `home` theme, the emitted
response is an acknowledgement followed by `questions[1]`. -/
theorem respond_question_sequence_witness :
    themesLookup "home" = some homeTheme ∧
    (∀ t ∈ (["Я вырос в деревянном доме."] : List String), jsTrim t ≠ "") ∧
    ((∀ q, homeTheme.questions[1]? = some q →
        ∃ ack ∈ contextualResponses,
          ((runReplies 3 "09:15" ["Я вырос в деревянном доме."]
              (selectTheme "home" initialAppState demoScreens).1).2)[1 - 1]? =
            some (ack ++ " " ++ q)) ∧
     (1 = homeTheme.questions.length →
        ((runReplies 3 "09:15" ["Я вырос в деревянном доме."]
            (selectTheme "home" initialAppState demoScreens).1).2)[1 - 1]? =
          some "Замечательно! Кажется, мы собрали все о этой теме. Хотите что-то добавить?") ∧
     (homeTheme.questions.length < 1 →
        ∃ ack ∈ contextualResponses,
          ((runReplies 3 "09:15" ["Я вырос в деревянном доме."]
              (selectTheme "home" initialAppState demoScreens).1).2)[1 - 1]? =
            some (ack ++ " Расскажите об этом подробнее."))) :=
  ⟨rfl, by decide,
    respond_question_sequence 3 "09:15" "home" homeTheme rfl
      ["Я вырос в деревянном доме."] (by decide) initialAppState demoScreens 1 rfl
      (by decide)⟩

def cexC3Responses : List String :=
  (runReplies 0 "12:00"
    ["Дом был деревянный.", "Пахло хлебом.", "Чердак.", "Пели песни.",
     "Качели у реки.", "Да, многое."]
    (selectTheme "home" initialAppState demoScreens).1).2

/-- C3 counterexample: the `home` theme has 5 questions, so K = 6 is
strictly beyond the list length; yet the response emitted to the 6th reply
is an acknowledgement plus the generic "tell me more" filler, not the fixed
closing message the claim requires for every such K. -/
theorem respond_question_sequence_counterexample :
    (themesLookup "home").map (fun theme => theme.questions.length) = some 5 ∧
    cexC3Responses[5]? = some "Как интересно! Расскажите об этом подробнее." ∧
    cexC3Responses[5]? ≠
      some "Замечательно! Кажется, мы собрали все о этой теме. Хотите что-то добавить?" := by
  decide

/-! ## Facts about the relevance score -/

/-- A conditional-accumulation fold counts its matches. -/
theorem foldl_if_add {α : Type} (p : α → Bool) (w : ℚ) :
    ∀ (l : List α) (a : ℚ),
      l.foldl (fun score x => if p x then score + w else score) a =
        a + (l.countP p) * w := by
  intro l
  induction l with
  | nil => intro a; simp
  | cons x xs ih =>
      intro a
      rw [List.foldl_cons, List.countP_cons]
      cases hx : p x
      · simp [hx, ih]
      · simp only [hx, if_true, if_pos, ih]
        push_cast
        ring

/-- The number of question keywords found in the document text (counted
with multiplicity, as the source loop does). -/
def keywordMatchCount (question : String) (doc : RecognizedDoc) : Nat :=
  (extractKeywords (jsToLower question)).countP fun keyword =>
    includesStr (jsToLower doc.processedText) keyword

/-- The organization-metadata condition of the score. -/
def orgMatched (question : String) (doc : RecognizedDoc) : Bool :=
  includesStr (jsToLower question) "организация" && optTruthy doc.metadata.organization

/-- The document-type condition of the score. -/
def typeMatched (question : String) (doc : RecognizedDoc) : Bool :=
  includesStr (jsToLower question) "документ" && optTruthy doc.metadata.docType

/-- The date condition of the score. -/
def dateMatched (question : String) (doc : RecognizedDoc) : Bool :=
  includesStr (jsToLower question) "дата" && optTruthy doc.metadata.docDate

/-- The number of document keywords echoed in the question. -/
def metaKeywordMatchCount (question : String) (doc : RecognizedDoc) : Nat :=
  doc.metadata.keywords.countP fun keyword =>
    includesStr (jsToLower question) keyword

/-- The pre-clamp score as a weighted sum over the matched conditions. -/
def rawScore (k : Nat) (org typ date : Bool) (m : Nat) : ℚ :=
  k * 0.2 + (if org then 0.3 else 0) + (if typ then 0.2 else 0) +
    (if date then 0.3 else 0) + m * 0.25

/-- `calculateRelevanceScore` is the clamp of the weighted condition count. -/
theorem calculateRelevanceScore_eq (question : String) (doc : RecognizedDoc) :
    calculateRelevanceScore question doc =
      min
        (rawScore (keywordMatchCount question doc) (orgMatched question doc)
          (typeMatched question doc) (dateMatched question doc)
          (metaKeywordMatchCount question doc)) 1 := by
  unfold calculateRelevanceScore keywordMatchCount orgMatched typeMatched
    dateMatched metaKeywordMatchCount rawScore
  simp only [foldl_if_add]
  congr 1
  split_ifs <;> ring

theorem rawScore_nonneg (k : Nat) (org typ date : Bool) (m : Nat) :
    0 ≤ rawScore k org typ date m := by
  unfold rawScore
  split_ifs <;> positivity

theorem rawScore_mono (k k' : Nat) (org org' typ typ' date date' : Bool) (m m' : Nat)
    (hk : k ≤ k') (ho : org = true → org' = true) (ht : typ = true → typ' = true)
    (hd : date = true → date' = true) (hm : m ≤ m') :
    rawScore k org typ date m ≤ rawScore k' org' typ' date' m' := by
  unfold rawScore
  have h1 : (k : ℚ) * 0.2 ≤ (k' : ℚ) * 0.2 := by
    have hc : (k : ℚ) ≤ (k' : ℚ) := by exact_mod_cast hk
    nlinarith
  have h5 : (m : ℚ) * 0.25 ≤ (m' : ℚ) * 0.25 := by
    have hc : (m : ℚ) ≤ (m' : ℚ) := by exact_mod_cast hm
    nlinarith
  have h2 : (if org then (0.3 : ℚ) else 0) ≤ (if org' then (0.3 : ℚ) else 0) := by
    cases horg : org
    · rw [if_neg Bool.false_ne_true]
      split_ifs <;> norm_num
    · rw [if_pos (ho horg), if_pos rfl]
  have h3 : (if typ then (0.2 : ℚ) else 0) ≤ (if typ' then (0.2 : ℚ) else 0) := by
    cases htyp : typ
    · rw [if_neg Bool.false_ne_true]
      split_ifs <;> norm_num
    · rw [if_pos (ht htyp), if_pos rfl]
  have h4 : (if date then (0.3 : ℚ) else 0) ≤ (if date' then (0.3 : ℚ) else 0) := by
    cases hdate : date
    · rw [if_neg Bool.false_ne_true]
      split_ifs <;> norm_num
    · rw [if_pos (hd hdate), if_pos rfl]
  linarith

/-- C4: the relevance score is monotonically non-decreasing in the matched
keyword/metadata conditions — a pair matching no fewer conditions scores no
lower — and it always lies in the closed interval [0, 1]. -/
theorem relevanceScore_monotone_bounded (q q' : String) (d d' : RecognizedDoc)
    (hk : keywordMatchCount q d ≤ keywordMatchCount q' d')
    (ho : orgMatched q d = true → orgMatched q' d' = true)
    (ht : typeMatched q d = true → typeMatched q' d' = true)
    (hd : dateMatched q d = true → dateMatched q' d' = true)
    (hm : metaKeywordMatchCount q d ≤ metaKeywordMatchCount q' d') :
    calculateRelevanceScore q d ≤ calculateRelevanceScore q' d' ∧
    0 ≤ calculateRelevanceScore q d ∧ calculateRelevanceScore q d ≤ 1 := by
  rw [calculateRelevanceScore_eq q d, calculateRelevanceScore_eq q' d']
  refine ⟨min_le_min (rawScore_mono _ _ _ _ _ _ _ _ _ _ hk ho ht hd hm) le_rfl,
    le_min (rawScore_nonneg _ _ _ _ _) zero_le_one, min_le_right _ _⟩

/-- A concrete recognized document used to instantiate the OCR theorems. -/
def demoDoc : RecognizedDoc :=
  { id := 1700000000000
    fileName := "prikaz.png"
    originalText := "ПРИКАЗ № 123 от 01.02.2023 о проведении обучения"
    processedText := "ПРИКАЗ № 123 от 01.02.2023 о проведении обучения"
    confidence := 91
    metadata := extractMetadata "ПРИКАЗ № 123 от 01.02.2023 о проведении обучения" }

/-- C4 witness: the score of a concrete question against the demo document,
compared with itself. -/
theorem relevanceScore_monotone_bounded_witness :
    keywordMatchCount "Какая дата документа?" demoDoc ≤
      keywordMatchCount "Какая дата документа?" demoDoc ∧
    (calculateRelevanceScore "Какая дата документа?" demoDoc ≤
        calculateRelevanceScore "Какая дата документа?" demoDoc ∧
      0 ≤ calculateRelevanceScore "Какая дата документа?" demoDoc ∧
      calculateRelevanceScore "Какая дата документа?" demoDoc ≤ 1) :=
  ⟨le_refl _,
    relevanceScore_monotone_bounded "Какая дата документа?" "Какая дата документа?"
      demoDoc demoDoc (le_refl _) id id id (le_refl _)⟩

/-! ## Facts about the metadata extraction -/

/-- The document-number pattern is anchored on `№`. -/
theorem matchDocNumberAt_not_num (c : Char) (cs : List Char) (h : c ≠ '№') :
    matchDocNumberAt (c :: cs) = none := by
  rw [matchDocNumberAt]
  rw [if_neg h]

/-- The leftmost document-number search skips any prefix free of `№`. -/
theorem scanFirst_docNumber_skip (a rest : List Char) (h : '№' ∉ a) :
    scanFirst matchDocNumberAt (a ++ rest) = scanFirst matchDocNumberAt rest := by
  induction a with
  | nil => rfl
  | cons c a ih =>
      have hc : c ≠ '№' := fun hc => h (hc ▸ List.mem_cons_self c a)
      rw [List.cons_append, scanFirst, matchDocNumberAt_not_num c _ hc]
      exact ih fun hm => h (List.mem_cons_of_mem _ hm)

/-- At an occurrence `№ 123` whose digit run ends there, the
document-number pattern captures exactly `123`. -/
theorem matchDocNumberAt_here (b : List Char)
    (hb : b.head?.all (fun c => !isNumTail c) = true) :
    matchDocNumberAt ('№' :: ' ' :: '1' :: '2' :: '3' :: b) = some ['1', '2', '3'] := by
  rw [matchDocNumberAt]
  rw [if_pos rfl]
  have h1 : List.dropWhile isWs (' ' :: '1' :: '2' :: '3' :: b) = '1' :: '2' :: '3' :: b := by
    simp [List.dropWhile_cons, show isWs ' ' = true from rfl,
      show isWs '1' = false from rfl]
  rw [h1]
  dsimp only
  rw [if_pos (by decide : ('1' : Char).isDigit = true)]
  have h2 : List.takeWhile isNumTail ('1' :: '2' :: '3' :: b) = ['1', '2', '3'] := by
    simp only [List.takeWhile_cons, show isNumTail '1' = true from rfl,
      show isNumTail '2' = true from rfl, show isNumTail '3' = true from rfl,
      if_true]
    cases b with
    | nil => rfl
    | cons c bs =>
        simp only [List.head?_cons, Option.all_some, Bool.not_eq_true'] at hb
        simp [List.takeWhile_cons, hb]
  rw [h2]

/-- C6 (amended): for every text in which the *first* occurrence of the
document-number pattern is a `№ 123` whose digit run stops there (no `№`
occurs earlier and no digit, slash or dash follows the `123`), and whose
*first* date-pattern match is `01.02.2023`, `extractMetadata` returns
`docNumber = "123"` and `docDate = "01.02.2023"`.  (Mere substring
containment is not enough: the regexes commit to the first match.) -/
theorem extractMetadata_number_date (a b : List Char)
    (hNo : '№' ∉ a)
    (hb : b.head?.all (fun c => !isNumTail c) = true)
    (hDate : scanFirst matchDateAt (a ++ '№' :: ' ' :: '1' :: '2' :: '3' :: b) =
      some "01.02.2023".toList) :
    (extractMetadata (String.mk (a ++ '№' :: ' ' :: '1' :: '2' :: '3' :: b))).docNumber =
      some "123" ∧
    (extractMetadata (String.mk (a ++ '№' :: ' ' :: '1' :: '2' :: '3' :: b))).docDate =
      some "01.02.2023" := by
  unfold extractMetadata
  dsimp only
  constructor
  · rw [show (String.mk (a ++ '№' :: ' ' :: '1' :: '2' :: '3' :: b)).toList =
      a ++ '№' :: ' ' :: '1' :: '2' :: '3' :: b from rfl]
    rw [scanFirst_docNumber_skip a _ hNo, scanFirst, matchDocNumberAt_here b hb]
    rfl
  · rw [show (String.mk (a ++ '№' :: ' ' :: '1' :: '2' :: '3' :: b)).toList =
      a ++ '№' :: ' ' :: '1' :: '2' :: '3' :: b from rfl]
    rw [hDate]
    rfl

/-- C6 witness: the realistic text `ПРИКАЗ № 123 от 01.02.2023`. -/
theorem extractMetadata_number_date_witness :
    ('№' ∉ "ПРИКАЗ ".toList) ∧
    ((" от 01.02.2023".toList).head?.all (fun c => !isNumTail c) = true) ∧
    (scanFirst matchDateAt
        ("ПРИКАЗ ".toList ++ '№' :: ' ' :: '1' :: '2' :: '3' :: " от 01.02.2023".toList) =
      some "01.02.2023".toList) ∧
    ((extractMetadata (String.mk
        ("ПРИКАЗ ".toList ++ '№' :: ' ' :: '1' :: '2' :: '3' :: " от 01.02.2023".toList))).docNumber =
        some "123" ∧
     (extractMetadata (String.mk
        ("ПРИКАЗ ".toList ++ '№' :: ' ' :: '1' :: '2' :: '3' :: " от 01.02.2023".toList))).docDate =
        some "01.02.2023") :=
  ⟨by decide, by decide, by decide,
    extractMetadata_number_date "ПРИКАЗ ".toList " от 01.02.2023".toList
      (by decide) (by decide) (by decide)⟩

def cexC6Text : String := "ПРИКАЗ № 1234 от 31.12.1999, изменение от 01.02.2023"

/-- C6 counterexample: this text contains both substrings `№ 123` and
`01.02.2023`, yet `extractMetadata` returns `docNumber = "1234"` (the full
first digit run) and `docDate = "31.12.1999"` (the first date match) — the
claim fails as a universal statement about substring containment. -/
theorem extractMetadata_substring_counterexample :
    includesStr cexC6Text "№ 123" = true ∧
    includesStr cexC6Text "01.02.2023" = true ∧
    (extractMetadata cexC6Text).docNumber = some "1234" ∧
    (extractMetadata cexC6Text).docDate = some "31.12.1999" ∧
    ¬((extractMetadata cexC6Text).docNumber = some "123" ∧
      (extractMetadata cexC6Text).docDate = some "01.02.2023") := by
  decide

/-! ## Facts about question-to-document matching -/

/-- Every entry of the match list records its own question's score, and
that score strictly exceeds the 0.3 threshold. -/
theorem matchQuestions_entry_score (doc : RecognizedDoc) (qs : List String) :
    ∀ m ∈ matchQuestionsToDocument doc qs,
      m.relevanceScore = calculateRelevanceScore m.question doc ∧
      (0.3 : ℚ) < calculateRelevanceScore m.question doc := by
  intro m hm
  unfold matchQuestionsToDocument at hm
  rw [List.mem_insertionSort] at hm
  obtain ⟨q, _, hfq⟩ := List.mem_filterMap.mp hm
  dsimp only at hfq
  split_ifs at hfq with hc
  obtain rfl := Option.some.inj hfq
  exact ⟨rfl, hc⟩

/-- C7: `matchQuestionsToDocument` returns only entries whose relevance
score is not below the 0.3 threshold (questions scoring below 0.3 are
filtered out), and the returned list is sorted in descending order of
relevance score.  (The source filter is strict, `score > 0.3`, so a score
of exactly 0.3 is also dropped; both claimed properties still hold.) -/
theorem matchQuestions_threshold_sorted (doc : RecognizedDoc) (qs : List String) :
    (∀ m ∈ matchQuestionsToDocument doc qs, (0.3 : ℚ) ≤ m.relevanceScore) ∧
    (∀ q ∈ qs, calculateRelevanceScore q doc < 0.3 →
        ∀ m ∈ matchQuestionsToDocument doc qs, m.question ≠ q) ∧
    List.Sorted scoreGE (matchQuestionsToDocument doc qs) := by
  refine ⟨?_, ?_, ?_⟩
  · intro m hm
    obtain ⟨he, hlt⟩ := matchQuestions_entry_score doc qs m hm
    rw [he]
    exact le_of_lt hlt
  · intro q _ hscore m hm hqeq
    obtain ⟨_, hlt⟩ := matchQuestions_entry_score doc qs m hm
    rw [hqeq] at hlt
    linarith
  · unfold matchQuestionsToDocument
    exact List.sorted_insertionSort scoreGE _

/-- C7 witness: the match list of two concrete questions against the demo
document. -/
theorem matchQuestions_threshold_sorted_witness :
    (∀ m ∈ matchQuestionsToDocument demoDoc
        ["Какая дата документа?", "Что сказано про погоду?"],
      (0.3 : ℚ) ≤ m.relevanceScore) ∧
    (∀ q ∈ (["Какая дата документа?", "Что сказано про погоду?"] : List String),
      calculateRelevanceScore q demoDoc < 0.3 →
        ∀ m ∈ matchQuestionsToDocument demoDoc
            ["Какая дата документа?", "Что сказано про погоду?"],
          m.question ≠ q) ∧
    List.Sorted scoreGE
      (matchQuestionsToDocument demoDoc
        ["Какая дата документа?", "Что сказано про погоду?"]) :=
  matchQuestions_threshold_sorted demoDoc
    ["Какая дата документа?", "Что сказано про погоду?"]
